import Mathlib

/-!
Verification of the estidama-daylight compliance engine.

Shallow embedding of the compliance evaluation and scoring engine of the
estidama-daylight app: the shading width validator, the window and space
evaluators (src/estidama.py), the program threshold table
(src/introduction.py), and the illuminance compliance aggregator
(src/result.py and src/visualization.py).

Python floats are embedded as exact rationals. Python exceptions are
embedded with an Except monad whose error type distinguishes an unguarded
ZeroDivisionError from an explicitly raised error. Geometry primitives
(centroid, midpoints, horizontality tests, edge extraction) are an
external collaborator of the engine and are embedded as record fields and
an abstract distance oracle passed to the evaluators.
-/

namespace Estidama

deriving instance DecidableEq for Except

/-- Errors a Python computation in the engine can raise: an unguarded
division by zero, or an error raised explicitly by guard code with a
message. The engine under verification only ever produces the former. -/
inductive PyErr where
  | zeroDivision : PyErr
  | explicit : String → PyErr
deriving DecidableEq, Repr

/-- Python division: raises ZeroDivisionError when the denominator is zero,
otherwise returns the exact quotient. -/
def pyDiv (a b : ℚ) : Except PyErr ℚ :=
  if b = 0 then Except.error PyErr.zeroDivision else Except.ok (a / b)

/-- Floor of a rational as an integer, computed by floor division of the
numerator by the denominator. -/
def ratFloor (q : ℚ) : ℤ := Int.fdiv q.num q.den

/-- Round a rational to the nearest integer, ties to even, following the
rounding used by Python round(). -/
def roundHalfEven (q : ℚ) : ℤ :=
  let f := ratFloor q
  let r := q - (f : ℚ)
  if r < 1/2 then f
  else if 1/2 < r then f + 1
  else if f % 2 = 0 then f else f + 1

/-- Python round(x, 1): round to one decimal place, ties to even. -/
def round1 (q : ℚ) : ℚ := ((roundHalfEven (q * 10) : ℤ) : ℚ) / 10

/-- Monadic map over a list in the Except monad, evaluating left to right
and aborting at the first error, exactly as a Python for loop over the
list propagates the first raised exception. -/
def mapE {α β : Type} (f : α → Except PyErr β) : List α → Except PyErr (List β)
  | [] => Except.ok []
  | a :: as =>
    match f a with
    | Except.error e => Except.error e
    | Except.ok b =>
      match mapE f as with
      | Except.error e => Except.error e
      | Except.ok bs => Except.ok (b :: bs)

/-- The building programs offered by the app (enum ProgramName, values
General, Retail, Residential and School). -/
inductive ProgramName where
  | general : ProgramName
  | retail : ProgramName
  | residential : ProgramName
  | school : ProgramName
deriving DecidableEq, Repr

/-- Modelled from the spec: the Program record constructed by
select_program in src/introduction.py. The class definition itself is not
under src/; its positional fields (name, minimum illuminance threshold,
credit 1 area fraction, credit 2 area fraction, occupancy sensor note)
are fixed by the constructor calls in src/introduction.py and the
attribute reads program.min_threshold, program.credit_1_threshold and
program.credit_2_threshold in src/result.py. -/
structure Program where
  name : ProgramName
  min_threshold : ℚ
  credit_1_threshold : ℚ
  credit_2_threshold : ℚ
  occupancy_sensor_requirement : String
deriving DecidableEq, Repr

/-- select_program from src/introduction.py, lines 33 to 65: maps the
selected program name to its threshold configuration; Retail yields no
configuration at all (the Python function returns None). -/
def select_program (name : ProgramName) : Option Program :=
  match name with
  | ProgramName.general =>
      some ⟨ProgramName.general, 250, 1/2, 3/4,
        "Install occupancy sensors in all rooms intended for individual occupancy, conferencing or meeting rooms, open plan offices spaces and hallways or corridors."⟩
  | ProgramName.retail => none
  | ProgramName.residential =>
      some ⟨ProgramName.residential, 200, 1/2, 3/4,
        "Install occupancy sensors in all communal spaces of the building including hallways."⟩
  | ProgramName.school =>
      some ⟨ProgramName.school, 300, 3/4, 9/10,
        "Install occupancy sensors in all rooms intended for individual occupancy, classrooms, open plan offices spaces and hallways."⟩

/-- Modelled from the spec: a simulation timepoint (month, day, hour). The
PointInTime class is imported from estidama in src/simulation.py and
src/result.py but its definition is not under src/; the spec fixes the six
timepoints and the key format month_day_hour. -/
structure PointInTime where
  month : ℕ
  day : ℕ
  hour : ℕ
deriving DecidableEq, Repr

/-- Modelled from the spec: the string key of a timepoint, in the exact
wire format month_day_hour. -/
def PointInTime.as_string (p : PointInTime) : String :=
  toString p.month ++ "_" ++ toString p.day ++ "_" ++ toString p.hour

/-- Modelled from the spec: the six fixed simulation timepoints (equinox
and summer solstice at 10, 12 and 14 hours), in the column order used by
prepare_results in src/result.py. The constant SIM_TIMES is imported from
estidama in src/result.py but its definition is not under src/. -/
def SIM_TIMES : List PointInTime :=
  [⟨9, 21, 10⟩, ⟨9, 21, 12⟩, ⟨9, 21, 14⟩, ⟨6, 21, 10⟩, ⟨6, 21, 12⟩, ⟨6, 21, 14⟩]

namespace Result

/-- percentage_complied from src/result.py, lines 17 to 39: read the
sensor values of a result file, mark each value at or above the threshold
as compliant, and return the compliant count divided by the total count.
The final division is unguarded Python division. -/
def percentage_complied (vals : List ℚ) (threshold : ℚ) : Except PyErr ℚ :=
  pyDiv ((vals.map (fun num => decide (num ≥ threshold))).count true)
    (vals.map (fun num => decide (num ≥ threshold))).length

end Result

namespace Visualization

/-- percentage_complied from src/visualization.py, lines 111 to 132: same
sensor scan as the variant in src/result.py, but the compliant count is
multiplied by 100 before the unguarded division. -/
def percentage_complied (vals : List ℚ) (threshold : ℚ) : Except PyErr ℚ :=
  pyDiv ((vals.map (fun num => decide (num ≥ threshold))).count true * 100)
    (vals.map (fun num => decide (num ≥ threshold))).length

end Visualization

/-- A boundary segment (edge) of a shade polygon, as consumed by
check_shade_width in src/estidama.py: the geometry collaborator provides
its midpoint and, for vertical edges, the closest point on the segment to
a given point. -/
structure Segment (Pt : Type) where
  midpoint : Pt
  closest_point : Pt → Pt

/-- The face geometry of a Honeybee shade, restricted to the operations
check_shade_width in src/estidama.py consumes: the vertex list, the center
point, the boundary segments, the horizontality test against a tolerance,
and leftmost and rightmost vertical edge extraction against a tolerance
(None when extraction fails). The geometry library is an external
collaborator; these fields record the answers it would give. -/
structure ShadeGeometry (Pt : Type) where
  vertices : List Pt
  center : Pt
  boundary_segments : List (Segment Pt)
  is_horizontal : ℚ → Bool
  get_left_right_vertical_edges : ℚ → Option (Segment Pt × Segment Pt)

/-- A Honeybee shade as consumed by check_shade_width in src/estidama.py:
a display name and a face geometry. -/
structure Shade (Pt : Type) where
  display_name : String
  geometry : ShadeGeometry Pt

/-- The failure result produced by the local function warning_1 in
check_shade_width, src/estidama.py lines 159 to 160. -/
def warning_1 {Pt : Type} (shade : Shade Pt) : Bool × String :=
  (false, "Shade " ++ shade.display_name ++ " is wider than 4 meters.")

/-- The failure result produced by the local function warning_2 in
check_shade_width, src/estidama.py lines 162 to 164. -/
def warning_2 {Pt : Type} (shade : Shade Pt) : Bool × String :=
  (false, "The app could not validate shade " ++ shade.display_name ++
    ". Make sure the width is less than 4 meters wide.")

/-- check_shade_width from src/estidama.py, lines 141 to 185. The distance
oracle dist embeds the distance_to_point operation of the external
geometry library. With at most 4 vertices, the function fails at the first
boundary segment whose center-to-midpoint distance, rounded to one
decimal, exceeds 2.0. With more than 4 vertices it fails as unvalidatable
when the polygon is horizontal or edge extraction fails, and otherwise
fails exactly when the distance from the midpoint of the left edge to the
closest point on the right edge exceeds 4.0. -/
def check_shade_width {Pt : Type} (dist : Pt → Pt → ℚ) (shade : Shade Pt)
    (tolerance : ℚ) : Bool × String :=
  if shade.geometry.vertices.length ≤ 4 then
    match shade.geometry.boundary_segments.find?
        (fun line => decide (2 < round1 (dist shade.geometry.center line.midpoint))) with
    | some _ => warning_1 shade
    | none => (true, "")
  else
    if shade.geometry.is_horizontal tolerance = false then
      match shade.geometry.get_left_right_vertical_edges tolerance with
      | some (left_edge, right_edge) =>
        if 4 < dist left_edge.midpoint (right_edge.closest_point left_edge.midpoint) then
          warning_1 shade
        else (true, "")
      | none => warning_2 shade
    else warning_2 shade

/-- A Honeybee aperture as consumed by the Window class in
src/estidama.py: a display name and the lists of outdoor and indoor
shades. -/
structure Aperture (Pt : Type) where
  display_name : String
  outdoor_shades : List (Shade Pt)
  indoor_shades : List (Shade Pt)

/-- The properties of a Window object of src/estidama.py after its
_evaluate method ran: the shading flags and the collected warnings. -/
structure WindowEval where
  has_external_shades : Bool
  has_internal_shades : Bool
  has_shades : Bool
  warnings : List String
deriving DecidableEq, Repr

/-- The fixed warning appended by Window._evaluate in src/estidama.py,
lines 252 to 254, for the School program. -/
def school_warning : String :=
  "For the program type of \"School\" shades are required."

/-- The per-shade results of check_shade_width collected by
Window._evaluate in src/estidama.py, lines 234 to 240, in shade-list
order. -/
def indoor_checks {Pt : Type} (dist : Pt → Pt → ℚ) (aperture : Aperture Pt)
    (tolerance : ℚ) : List (Bool × String) :=
  aperture.indoor_shades.map (fun s => check_shade_width dist s tolerance)

/-- The has_external_shades flag set by Window._evaluate in
src/estidama.py, lines 231 to 232: presence of any outdoor shade. -/
def window_has_external_shades {Pt : Type} (aperture : Aperture Pt) : Bool :=
  0 < aperture.outdoor_shades.length

/-- The has_internal_shades flag set by Window._evaluate in
src/estidama.py, lines 234 to 243: there is at least one indoor shade and
every indoor shade passes check_shade_width. -/
def window_has_internal_shades {Pt : Type} (dist : Pt → Pt → ℚ)
    (aperture : Aperture Pt) (tolerance : ℚ) : Bool :=
  decide (0 < aperture.indoor_shades.length) &&
    (indoor_checks dist aperture tolerance).all (fun r => r.1)

/-- The warnings collected by Window._evaluate in src/estidama.py, lines
244 to 247: when there are indoor shades and not all pass, the non-empty
warning strings of the checks, in shade-list order. -/
def window_width_warnings {Pt : Type} (dist : Pt → Pt → ℚ)
    (aperture : Aperture Pt) (tolerance : ℚ) : List String :=
  if 0 < aperture.indoor_shades.length ∧
      (indoor_checks dist aperture tolerance).all (fun r => r.1) = false then
    ((indoor_checks dist aperture tolerance).map (fun r => r.2)).filter (fun w => w ≠ "")
  else []

/-- The has_shades flag set by Window._evaluate in src/estidama.py, lines
249 to 250: either external or internal shading. -/
def window_has_shades {Pt : Type} (dist : Pt → Pt → ℚ) (aperture : Aperture Pt)
    (tolerance : ℚ) : Bool :=
  window_has_external_shades aperture || window_has_internal_shades dist aperture tolerance

/-- Window._evaluate from src/estidama.py, lines 229 to 254: external
shading is presence of any outdoor shade; internal shading requires every
indoor shade to pass check_shade_width, and when some fail, the non-empty
warnings of the failing checks are collected in shade-list order; the
window has shades when either flag is set, and otherwise the School
program appends its fixed warning. -/
def window_evaluate {Pt : Type} (dist : Pt → Pt → ℚ) (aperture : Aperture Pt)
    (program : ProgramName) (tolerance : ℚ) : WindowEval :=
  ⟨window_has_external_shades aperture,
   window_has_internal_shades dist aperture tolerance,
   window_has_shades dist aperture tolerance,
   if window_has_shades dist aperture tolerance = false ∧ program = ProgramName.school then
     window_width_warnings dist aperture tolerance ++ [school_warning]
   else window_width_warnings dist aperture tolerance⟩

/-- A face of a Honeybee room, restricted to what
OccupiedArea._evaluate in src/estidama.py consumes: its apertures. -/
structure Face (Pt : Type) where
  apertures : List (Aperture Pt)

/-- A Honeybee room as consumed by src/estidama.py (display name,
exterior aperture area, faces) and src/result.py (display name, floor
area). -/
structure Room (Pt : Type) where
  display_name : String
  floor_area : ℚ
  exterior_aperture_area : ℚ
  faces : List (Face Pt)

/-- The properties of an OccupiedArea object of src/estidama.py after its
_evaluate method ran. -/
structure OccupiedAreaEval where
  has_windows : Bool
  has_shades : Bool
  warnings : List String
  windows : List WindowEval
deriving DecidableEq, Repr

/-- OccupiedArea._evaluate from src/estidama.py, lines 106 to 128: when
the exterior aperture area of the room is zero, every property keeps its
initial value (no windows, no shades, no warnings) and no surface is
visited; otherwise the room has windows, each aperture of each face is
evaluated as a Window in traversal order, warnings are concatenated, and
the room has shades exactly when all collected has_shades flags are true
(the Python all() of an empty list being true). -/
def occupied_area_evaluate {Pt : Type} (dist : Pt → Pt → ℚ) (room : Room Pt)
    (program : ProgramName) (tolerance : ℚ) : OccupiedAreaEval :=
  if room.exterior_aperture_area = 0 then ⟨false, false, [], []⟩
  else
    let windows := (room.faces.map
      (fun face => face.apertures.map
        (fun aperture => window_evaluate dist aperture program tolerance))).flatten
    let warnings := (windows.map (fun w => w.warnings)).flatten
    let has_shades := windows.all (fun w => w.has_shades)
    ⟨true, has_shades, warnings, windows⟩

/-- The result file name prepare_results in src/result.py, line 173, looks
up for a room. -/
def grid_file {Pt : Type} (room : Room Pt) : String :=
  "grid_" ++ room.display_name ++ ".res"

/-- statistics.mean as used by prepare_results in src/result.py on the six
compliant areas of a room: the sum divided by the length. It is only ever
applied to lists of exactly six values. -/
def statistics_mean (l : List ℚ) : ℚ := l.sum / l.length

/-- The per-room, per-timepoint compliant area computed by prepare_results
in src/result.py, lines 172 to 180: the floor area of the room times the
complying fraction of the result file of that room at that timepoint. The
map res embeds the downloaded result files, keyed by timepoint key and
file name. -/
def compliant_area {Pt : Type} (program : Program) (room : Room Pt)
    (res : String → String → List ℚ) (t : PointInTime) : Except PyErr ℚ :=
  match Result.percentage_complied (res t.as_string (grid_file room)) program.min_threshold with
  | Except.error e => Except.error e
  | Except.ok frac => Except.ok (room.floor_area * frac)

/-- The per-room average compliant area computed by prepare_results in
src/result.py, lines 172 to 182: the mean of the six per-timepoint
compliant areas of the room; the first exception raised while reading a
result file propagates. -/
def average_compliant_area {Pt : Type} (program : Program) (room : Room Pt)
    (res : String → String → List ℚ) : Except PyErr ℚ :=
  match mapE (compliant_area program room res) SIM_TIMES with
  | Except.error e => Except.error e
  | Except.ok compliant_areas => Except.ok (statistics_mean compliant_areas)

/-- The aggregation performed by prepare_results in src/result.py, lines
163 to 216: per room, the six per-timepoint compliant areas and their
mean; building-wide, the sum of the per-room means divided by the sum of
the floor areas, with the final division unguarded Python division. -/
def prepare_results {Pt : Type} (program : Program) (occupied_rooms : List (Room Pt))
    (res : String → String → List ℚ) : Except PyErr ℚ :=
  match mapE (fun room => average_compliant_area program room res) occupied_rooms with
  | Except.error e => Except.error e
  | Except.ok averages =>
    pyDiv averages.sum ((occupied_rooms.map (fun room => room.floor_area)).sum)

/-- The credit decision of the result function in src/result.py, lines 232
to 246: two credit points at or above the credit 2 threshold, else one
credit point at or above the credit 1 threshold, else none. -/
def credit_points (program : Program) (compliant_area_percentage : ℚ) : ℕ :=
  if compliant_area_percentage ≥ program.credit_2_threshold then 2
  else if compliant_area_percentage ≥ program.credit_1_threshold then 1
  else 0

/-- Stated from the words of the spec, for comparison with the code: the
fraction of sensor values at or above the minimum illuminance threshold. -/
def spec_fractionCompliant (vals : List ℚ) (threshold : ℚ) : ℚ :=
  (vals.countP (fun num => decide (num ≥ threshold)) : ℚ) / (vals.length : ℚ)

/-- Stated from the words of the spec, for comparison with the code: the
compliant area of a space at a timepoint is its floor area times the
compliant fraction. -/
def spec_compliantArea {Pt : Type} (program : Program) (room : Room Pt)
    (res : String → String → List ℚ) (t : PointInTime) : ℚ :=
  room.floor_area * spec_fractionCompliant (res t.as_string (grid_file room)) program.min_threshold

/-- Stated from the words of the spec, for comparison with the code: the
per-space average compliant area is the unweighted arithmetic mean of the
six per-timepoint compliant areas. -/
def spec_averageCompliantArea {Pt : Type} (program : Program) (room : Room Pt)
    (res : String → String → List ℚ) : ℚ :=
  (SIM_TIMES.map (spec_compliantArea program room res)).sum / 6

/-- Stated from the words of the spec, for comparison with the code: the
building-wide compliant fraction is the sum of the per-space averages
divided by the sum of the floor areas. -/
def spec_overallCompliantFraction {Pt : Type} (program : Program)
    (rooms : List (Room Pt)) (res : String → String → List ℚ) : ℚ :=
  (rooms.map (fun room => spec_averageCompliantArea program room res)).sum /
    (rooms.map (fun room => room.floor_area)).sum

/-- Integer square root of the numerator and denominator: exact square
root for the rationals appearing in the sample geometry, every one of
which is a square of a rational. -/
def ratSqrt (q : ℚ) : ℚ := (Nat.sqrt q.num.toNat : ℚ) / (Nat.sqrt q.den : ℚ)

/-- Euclidean distance between plane points, exact on the sample geometry
(whose squared distances are perfect squares); stands in for the
distance_to_point operation of the geometry collaborator on concrete
inputs. -/
def euclid_dist (a b : ℚ × ℚ) : ℚ :=
  ratSqrt ((a.1 - b.1) ^ 2 + (a.2 - b.2) ^ 2)

/-- A boundary segment of the sample polygons: only the midpoint matters
to the checks exercised. -/
def plain_segment (p : ℚ × ℚ) : Segment (ℚ × ℚ) := ⟨p, fun q => q⟩

/-- An axis-aligned square shade of side s centered at the origin, with
its four boundary edge midpoints; not horizontal, so the simple-polygon
branch of the validator applies when s is a side of a quad. -/
def square_shade (s : ℚ) : Shade (ℚ × ℚ) :=
  ⟨"square",
    ⟨[(s/2, s/2), (-(s/2), s/2), (-(s/2), -(s/2)), (s/2, -(s/2))],
     (0, 0),
     [plain_segment (0, s/2), plain_segment (-(s/2), 0),
      plain_segment (0, -(s/2)), plain_segment (s/2, 0)],
     fun _ => false,
     fun _ => none⟩⟩

/-- An eight-vertex shade reported horizontal by the geometry library. -/
def octagon_shade : Shade (ℚ × ℚ) :=
  ⟨"octagon",
    ⟨[(2, 1), (1, 2), (-1, 2), (-2, 1), (-2, -1), (-1, -2), (1, -2), (2, -1)],
     (0, 0),
     [],
     fun _ => true,
     fun _ => none⟩⟩

/-- An aperture with no outdoor and no indoor shades. -/
def bare_aperture : Aperture (ℚ × ℚ) := ⟨"ap", [], []⟩

/-- A sample program configuration with the General thresholds. -/
def general_program : Program :=
  ⟨ProgramName.general, 250, 1/2, 3/4,
    "Install occupancy sensors in all rooms intended for individual occupancy, conferencing or meeting rooms, open plan offices spaces and hallways or corridors."⟩

/-- A sample room of floor area 20 with no geometry. -/
def sample_room20 : Room Unit := ⟨"room", 20, 0, []⟩

/-- A sample room of floor area zero. -/
def zero_area_room : Room Unit := ⟨"flat", 0, 0, []⟩

/-- A room reporting positive exterior aperture area while exposing no
apertures on traversal. -/
def inconsistent_room : Room (ℚ × ℚ) := ⟨"room0", 10, 5, []⟩

/-- A room with an aperture in its data but exterior aperture area zero. -/
def windowed_zero_room : Room (ℚ × ℚ) := ⟨"roomz", 10, 0, [⟨[bare_aperture]⟩]⟩

/-- Ten sensor values of which exactly six meet a threshold of 250. -/
def sample_vals : List ℚ :=
  [300, 300, 300, 300, 300, 300, 100, 100, 100, 100]

/-- Result files all holding the ten sample sensor values. -/
def sample_res : String → String → List ℚ := fun _ _ => sample_vals

/-- Result files all empty. -/
def empty_res : String → String → List ℚ := fun _ _ => []

theorem mapE_ok_of_forall {α β : Type} (f : α → Except PyErr β) (g : α → β) :
    ∀ l : List α, (∀ a ∈ l, f a = Except.ok (g a)) → mapE f l = Except.ok (l.map g)
  | [], _ => rfl
  | a :: as, h => by
    have ha := h a (List.mem_cons_self a as)
    have hrest := mapE_ok_of_forall f g as (fun x hx => h x (List.mem_cons_of_mem a hx))
    simp [mapE, ha, hrest]

theorem mapE_ok_mem {α β : Type} (f : α → Except PyErr β) :
    ∀ l : List α, ∀ bs : List β, mapE f l = Except.ok bs → ∀ a ∈ l, ∃ b, f a = Except.ok b := by
  intro l
  induction l with
  | nil => intro bs _ a ha; cases ha
  | cons x xs ih =>
    intro bs h a ha
    unfold mapE at h
    cases hx : f x with
    | error e => rw [hx] at h; cases h
    | ok b =>
      rw [hx] at h
      cases hrest : mapE f xs with
      | error e => rw [hrest] at h; cases h
      | ok bs2 =>
        rcases List.mem_cons.mp ha with h1 | h2
        · subst h1; exact ⟨b, hx⟩
        · exact ih bs2 hrest a h2

theorem length_cast_ne_zero (vals : List ℚ) (h : vals ≠ []) :
    ((vals.length : ℚ)) ≠ 0 := by
  have : vals.length ≠ 0 := fun hh => h (List.length_eq_zero.mp hh)
  exact_mod_cast this

theorem count_true_map (vals : List ℚ) (threshold : ℚ) :
    (vals.map (fun num => decide (num ≥ threshold))).count true =
      vals.countP (fun num => decide (num ≥ threshold)) := by
  rw [List.count, List.countP_map]
  exact List.countP_congr (fun a _ => by simp)

theorem percentage_complied_ok (vals : List ℚ) (threshold : ℚ) (h : vals ≠ []) :
    Result.percentage_complied vals threshold =
      Except.ok (spec_fractionCompliant vals threshold) := by
  unfold Result.percentage_complied pyDiv spec_fractionCompliant
  rw [List.length_map, count_true_map, if_neg (length_cast_ne_zero vals h)]

theorem compliant_area_ok {Pt : Type} (program : Program) (room : Room Pt)
    (res : String → String → List ℚ) (t : PointInTime)
    (h : res t.as_string (grid_file room) ≠ []) :
    compliant_area program room res t = Except.ok (spec_compliantArea program room res t) := by
  unfold compliant_area spec_compliantArea
  rw [percentage_complied_ok _ _ h]

theorem average_compliant_area_ok {Pt : Type} (program : Program) (room : Room Pt)
    (res : String → String → List ℚ)
    (h : ∀ t ∈ SIM_TIMES, res t.as_string (grid_file room) ≠ []) :
    average_compliant_area program room res =
      Except.ok (spec_averageCompliantArea program room res) := by
  unfold average_compliant_area
  rw [mapE_ok_of_forall _ (spec_compliantArea program room res) SIM_TIMES
    (fun t ht => compliant_area_ok program room res t (h t ht))]
  show Except.ok (statistics_mean (SIM_TIMES.map (spec_compliantArea program room res))) = _
  unfold statistics_mean spec_averageCompliantArea
  rw [List.length_map]
  norm_num [SIM_TIMES]

theorem check_shade_width_snd {Pt : Type} (dist : Pt → Pt → ℚ) (shade : Shade Pt)
    (tolerance : ℚ) :
    (check_shade_width dist shade tolerance).2 = "" ∨
    (check_shade_width dist shade tolerance).2 = (warning_1 shade).2 ∨
    (check_shade_width dist shade tolerance).2 = (warning_2 shade).2 := by
  unfold check_shade_width
  split
  · split
    · right; left; rfl
    · left; rfl
  · split
    · split
      · split
        · right; left; rfl
        · left; rfl
      · right; right; rfl
    · right; right; rfl

theorem ne_of_data_head {s t : String} (h : s.data.head? ≠ t.data.head?) : s ≠ t :=
  fun e => h (by rw [e])

theorem school_warning_ne_warning_1 {Pt : Type} (shade : Shade Pt) :
    school_warning ≠ (warning_1 shade).2 := by
  apply ne_of_data_head
  have h1 : school_warning.data.head? = some 'F' := by with_unfolding_all decide
  have h0 : "Shade ".data = 'S' :: "hade ".data := by with_unfolding_all decide
  have h2 : ((warning_1 shade).2).data.head? = some 'S' := by
    show ("Shade " ++ shade.display_name ++ " is wider than 4 meters.").data.head? = some 'S'
    rw [String.data_append, String.data_append, h0]
    rfl
  rw [h1, h2]
  intro hc
  exact absurd (Option.some.inj hc) (by decide)

theorem school_warning_ne_warning_2 {Pt : Type} (shade : Shade Pt) :
    school_warning ≠ (warning_2 shade).2 := by
  apply ne_of_data_head
  have h1 : school_warning.data.head? = some 'F' := by with_unfolding_all decide
  have h0 : "The app could not validate shade ".data = 'T' :: "he app could not validate shade ".data := by
    with_unfolding_all decide
  have h2 : ((warning_2 shade).2).data.head? = some 'T' := by
    show ("The app could not validate shade " ++ shade.display_name ++
      ". Make sure the width is less than 4 meters wide.").data.head? = some 'T'
    rw [String.data_append, String.data_append, h0]
    rfl
  rw [h1, h2]
  intro hc
  exact absurd (Option.some.inj hc) (by decide)

theorem school_warning_ne_check {Pt : Type} (dist : Pt → Pt → ℚ) (shade : Shade Pt)
    (tolerance : ℚ) : (check_shade_width dist shade tolerance).2 ≠ school_warning := by
  rcases check_shade_width_snd dist shade tolerance with h | h | h <;> rw [h]
  · intro hc; exact absurd hc.symm (by with_unfolding_all decide)
  · exact fun hc => school_warning_ne_warning_1 shade hc.symm
  · exact fun hc => school_warning_ne_warning_2 shade hc.symm

theorem flatten_eq_nil {α : Type} :
    ∀ l : List (List α), (∀ x ∈ l, x = []) → l.flatten = []
  | [], _ => rfl
  | x :: xs, h => by
    have hx := h x (List.mem_cons_self x xs)
    have hrest := flatten_eq_nil xs (fun y hy => h y (List.mem_cons_of_mem x hy))
    simp [List.flatten, hx, hrest]

/-- Claim C2: the credit decision awards 2 credits when the overall
compliant fraction is at or above the credit 2 threshold, else 1 credit
when at or above the credit 1 threshold, else 0; a fraction exactly equal
to the credit 2 threshold awards 2 credits, ties resolving to the higher
band. -/
theorem C2_credit_ladder (program : Program) (frac : ℚ) :
    (program.credit_2_threshold ≤ frac → credit_points program frac = 2) ∧
    (frac < program.credit_2_threshold → program.credit_1_threshold ≤ frac →
      credit_points program frac = 1) ∧
    (frac < program.credit_2_threshold → frac < program.credit_1_threshold →
      credit_points program frac = 0) ∧
    (frac = program.credit_2_threshold → credit_points program frac = 2) := by
  unfold credit_points
  split_ifs with h1 h2
  · exact ⟨fun _ => rfl, fun hc _ => absurd h1 (not_le.mpr hc),
      fun hc _ => absurd h1 (not_le.mpr hc), fun _ => rfl⟩
  · exact ⟨fun hc => absurd hc h1, fun _ _ => rfl,
      fun _ hc => absurd h2 (not_le.mpr hc), fun hc => absurd (le_of_eq hc.symm) h1⟩
  · exact ⟨fun hc => absurd hc h1, fun _ hc => absurd hc h2,
      fun _ _ => rfl, fun hc => absurd (le_of_eq hc.symm) h1⟩

/-- Witness for claim C2: a fraction exactly at the General credit 2
threshold of 3/4 is awarded 2 credits. -/
theorem C2_credit_ladder_witness : credit_points general_program (3/4) = 2 :=
  (C2_credit_ladder general_program (3/4)).2.2.2 rfl

/-- Claim C3: for a shade polygon with more than 4 vertices, a horizontal
polygon fails as unvalidatable regardless of width; a non-horizontal
polygon with failed edge extraction fails the same way; otherwise the
shade fails as wider than 4 meters exactly when the distance from the
midpoint of the leftmost edge to the closest point on the rightmost edge
exceeds 4.0, and passes otherwise. -/
theorem C3_complex_shade_validation {Pt : Type} (dist : Pt → Pt → ℚ) (shade : Shade Pt)
    (tolerance : ℚ) (h : 4 < shade.geometry.vertices.length) :
    (shade.geometry.is_horizontal tolerance = true →
      check_shade_width dist shade tolerance = warning_2 shade) ∧
    (shade.geometry.is_horizontal tolerance = false →
      shade.geometry.get_left_right_vertical_edges tolerance = none →
      check_shade_width dist shade tolerance = warning_2 shade) ∧
    (∀ left_edge right_edge : Segment Pt,
      shade.geometry.is_horizontal tolerance = false →
      shade.geometry.get_left_right_vertical_edges tolerance = some (left_edge, right_edge) →
      ((4 < dist left_edge.midpoint (right_edge.closest_point left_edge.midpoint) →
        check_shade_width dist shade tolerance = warning_1 shade) ∧
       (dist left_edge.midpoint (right_edge.closest_point left_edge.midpoint) ≤ 4 →
        check_shade_width dist shade tolerance = (true, "")))) := by
  have hv : ¬ shade.geometry.vertices.length ≤ 4 := not_le.mpr h
  refine ⟨fun hh => ?_, fun hh hn => ?_, fun le re hh hs => ⟨fun hd => ?_, fun hd => ?_⟩⟩
  · simp [check_shade_width, hv, hh]
  · simp [check_shade_width, hv, hh, hn]
  · simp [check_shade_width, hv, hh, hs, hd]
  · have hd2 : ¬ (4 < dist le.midpoint (re.closest_point le.midpoint)) := not_lt.mpr hd
    simp [check_shade_width, hv, hh, hs, hd2]

/-- Witness for claim C3: an eight-vertex horizontal polygon fails with
the could-not-validate warning. -/
theorem C3_complex_shade_validation_witness :
    4 < octagon_shade.geometry.vertices.length ∧
    check_shade_width euclid_dist octagon_shade (1/100) = warning_2 octagon_shade :=
  ⟨by with_unfolding_all decide,
   (C3_complex_shade_validation euclid_dist octagon_shade (1/100)
     (by with_unfolding_all decide)).1 rfl⟩

/-- Claim C4: for a shade polygon with at most 4 vertices, the check fails
with the wider-than-4-meters warning exactly when some boundary edge has a
centroid-to-midpoint distance, rounded to one decimal, above 2.0, and
returns a clean pass otherwise. -/
theorem C4_simple_shade_validation {Pt : Type} (dist : Pt → Pt → ℚ) (shade : Shade Pt)
    (tolerance : ℚ) (h : shade.geometry.vertices.length ≤ 4) :
    (check_shade_width dist shade tolerance = warning_1 shade ↔
      ∃ line ∈ shade.geometry.boundary_segments,
        2 < round1 (dist shade.geometry.center line.midpoint)) ∧
    ((∀ line ∈ shade.geometry.boundary_segments,
        round1 (dist shade.geometry.center line.midpoint) ≤ 2) →
      check_shade_width dist shade tolerance = (true, "")) := by
  constructor
  · constructor
    · intro hc
      cases hf : List.find?
          (fun line => decide (2 < round1 (dist shade.geometry.center line.midpoint)))
          shade.geometry.boundary_segments with
      | none =>
        exfalso
        simp [check_shade_width, h, hf, warning_1] at hc
      | some line =>
        exact ⟨line, List.mem_of_find?_eq_some hf, by simpa using List.find?_some hf⟩
    · rintro ⟨line, hmem, hgt⟩
      cases hf : List.find?
          (fun line => decide (2 < round1 (dist shade.geometry.center line.midpoint)))
          shade.geometry.boundary_segments with
      | none =>
        exact absurd hgt (by simpa using List.find?_eq_none.mp hf line hmem)
      | some l =>
        simp [check_shade_width, h, hf]
  · intro hall
    cases hf : List.find?
        (fun line => decide (2 < round1 (dist shade.geometry.center line.midpoint)))
        shade.geometry.boundary_segments with
    | some l =>
      exact absurd (by simpa using List.find?_some hf)
        (not_lt.mpr (hall l (List.mem_of_find?_eq_some hf)))
    | none =>
      simp [check_shade_width, h, hf]

/-- Witness for claim C4: a square shade of side 3 centered at the origin
passes (all rounded distances are 1.5), and the square of side 5 fails
with the wider-than-4-meters warning (distance 2.5). -/
theorem C4_simple_shade_validation_witness :
    check_shade_width euclid_dist (square_shade 3) (1/100) = (true, "") ∧
    check_shade_width euclid_dist (square_shade 5) (1/100) = warning_1 (square_shade 5) :=
  ⟨(C4_simple_shade_validation euclid_dist (square_shade 3) (1/100)
      (by with_unfolding_all decide)).2 (by with_unfolding_all decide),
   (C4_simple_shade_validation euclid_dist (square_shade 5) (1/100)
      (by with_unfolding_all decide)).1.mpr (by with_unfolding_all decide)⟩

/-- Claim C7: a space whose exterior aperture area is zero evaluates to no
windows, no shades and no warnings, independently of any apertures present
in its faces. -/
theorem C7_zero_aperture_area_early_exit {Pt : Type} (dist : Pt → Pt → ℚ)
    (room : Room Pt) (program : ProgramName) (tolerance : ℚ)
    (h : room.exterior_aperture_area = 0) :
    occupied_area_evaluate dist room program tolerance = ⟨false, false, [], []⟩ := by
  simp [occupied_area_evaluate, h]

/-- Witness for claim C7: a room carrying an aperture in its data but
exterior aperture area zero still reports no windows, no shades and no
warnings. -/
theorem C7_zero_aperture_area_early_exit_witness :
    occupied_area_evaluate euclid_dist windowed_zero_room ProgramName.school (1/100) =
      ⟨false, false, [], []⟩ :=
  C7_zero_aperture_area_early_exit euclid_dist windowed_zero_room ProgramName.school
    (1/100) rfl

/-- Claim C9: every program except Retail yields a threshold configuration
with 0 less than the credit 1 fraction, the credit 1 fraction at most the
credit 2 fraction, the credit 2 fraction at most 1, and a positive minimum
illuminance; Retail yields no configuration. -/
theorem C9_threshold_invariants :
    (∀ name : ProgramName, name ≠ ProgramName.retail →
      ∃ program : Program, select_program name = some program ∧
        0 < program.credit_1_threshold ∧
        program.credit_1_threshold ≤ program.credit_2_threshold ∧
        program.credit_2_threshold ≤ 1 ∧
        0 < program.min_threshold) ∧
    select_program ProgramName.retail = none := by
  refine ⟨fun name h => ?_, rfl⟩
  cases name with
  | general => exact ⟨_, rfl, by with_unfolding_all decide⟩
  | retail => exact absurd rfl h
  | residential => exact ⟨_, rfl, by with_unfolding_all decide⟩
  | school => exact ⟨_, rfl, by with_unfolding_all decide⟩

/-- Witness for claim C9: the General program yields the configuration
with thresholds 250 lux, 1/2 and 3/4, satisfying the invariants. -/
theorem C9_threshold_invariants_witness :
    select_program ProgramName.general = some general_program ∧
    0 < general_program.credit_1_threshold ∧
    general_program.credit_1_threshold ≤ general_program.credit_2_threshold ∧
    general_program.credit_2_threshold ≤ 1 ∧
    0 < general_program.min_threshold := by
  obtain ⟨p, hp, h1, h2, h3, h4⟩ :=
    C9_threshold_invariants.1 ProgramName.general (by decide)
  have e : p = general_program := by
    have hsome : some p = some general_program := by rw [← hp]; rfl
    exact Option.some.inj hsome
  subst e
  exact ⟨rfl, h1, h2, h3, h4⟩

/-- Claim C10: wherever both variants of percentage_complied are defined,
the visualization variant returns exactly 100 times the result variant,
whose value lies in the unit interval. -/
theorem C10_visualization_variant (vals : List ℚ) (threshold x : ℚ)
    (h : Result.percentage_complied vals threshold = Except.ok x) :
    Visualization.percentage_complied vals threshold = Except.ok (100 * x) ∧
      0 ≤ x ∧ x ≤ 1 := by
  unfold Result.percentage_complied pyDiv at h
  unfold Visualization.percentage_complied pyDiv
  by_cases hz : ((vals.map (fun num => decide (num ≥ threshold))).length : ℚ) = 0
  · rw [if_pos hz] at h; cases h
  · rw [if_neg hz] at h
    rw [if_neg hz]
    have hx : x = ((vals.map (fun num => decide (num ≥ threshold))).count true : ℚ) /
        ((vals.map (fun num => decide (num ≥ threshold))).length : ℚ) :=
      (Except.ok.inj h).symm
    have hpos : (0 : ℚ) < ((vals.map (fun num => decide (num ≥ threshold))).length : ℚ) :=
      lt_of_le_of_ne (by positivity) (Ne.symm hz)
    refine ⟨?_, ?_, ?_⟩
    · congr 1
      rw [hx]
      ring
    · rw [hx]
      positivity
    · rw [hx, div_le_one hpos]
      exact_mod_cast List.count_le_length _ _

/-- Witness for claim C10: on the ten sample sensor values at threshold
250 the result variant yields 3/5 and the visualization variant 100 times
that. -/
theorem C10_visualization_variant_witness :
    Visualization.percentage_complied sample_vals 250 = Except.ok (100 * (3/5)) ∧
      (0 : ℚ) ≤ 3/5 ∧ (3/5 : ℚ) ≤ 1 :=
  C10_visualization_variant sample_vals 250 (3/5) (by with_unfolding_all decide)

/-- Counterexample for claim C5: for an aperture with no shades at all
under the School program, the single warning produced by the code is the
string with School in double quotes, so the string claimed by the spec,
without the quotes, is not in the warnings list. -/
theorem C5_school_warning_counterexample :
    (window_evaluate euclid_dist bare_aperture ProgramName.school (1/100)).warnings =
      ["For the program type of \"School\" shades are required."] ∧
    "For the program type of School shades are required." ∉
      (window_evaluate euclid_dist bare_aperture ProgramName.school (1/100)).warnings := by
  with_unfolding_all decide

/-- Claim C5 (amended): a non-compliant window under the School program
carries the fixed warning with School in double quotes; under any other
program that warning is absent; and an aperture with no shades at all has
exactly that one warning under School and no warnings otherwise. -/
theorem C5_school_warning_amended {Pt : Type} (dist : Pt → Pt → ℚ)
    (aperture : Aperture Pt) (tolerance : ℚ) :
    ((window_evaluate dist aperture ProgramName.school tolerance).has_shades = false →
      school_warning ∈ (window_evaluate dist aperture ProgramName.school tolerance).warnings) ∧
    (∀ program : ProgramName, program ≠ ProgramName.school →
      school_warning ∉ (window_evaluate dist aperture program tolerance).warnings) ∧
    (aperture.outdoor_shades = [] → aperture.indoor_shades = [] →
      (window_evaluate dist aperture ProgramName.school tolerance).warnings =
        [school_warning] ∧
      ∀ program : ProgramName, program ≠ ProgramName.school →
        (window_evaluate dist aperture program tolerance).warnings = []) := by
  refine ⟨fun h => ?_, fun prog hprog hmem => ?_, fun hout hind => ?_⟩
  · have h2 : window_has_shades dist aperture tolerance = false := h
    simp [window_evaluate, h2]
  · have hw : (window_evaluate dist aperture prog tolerance).warnings =
        window_width_warnings dist aperture tolerance := by
      simp [window_evaluate, hprog]
    rw [hw] at hmem
    unfold window_width_warnings at hmem
    by_cases hcond : 0 < aperture.indoor_shades.length ∧
        (indoor_checks dist aperture tolerance).all (fun r => r.1) = false
    · rw [if_pos hcond] at hmem
      have hmem2 := (List.mem_filter.mp hmem).1
      rcases List.mem_map.mp hmem2 with ⟨r, hr, hr2⟩
      unfold indoor_checks at hr
      rcases List.mem_map.mp hr with ⟨s, _, rfl⟩
      exact school_warning_ne_check dist s tolerance hr2
    · rw [if_neg hcond] at hmem
      exact absurd hmem (List.not_mem_nil _)
  · have hext : window_has_external_shades aperture = false := by
      simp [window_has_external_shades, hout]
    have hint : window_has_internal_shades dist aperture tolerance = false := by
      simp [window_has_internal_shades, hind]
    have hsh : window_has_shades dist aperture tolerance = false := by
      simp [window_has_shades, hext, hint]
    have hwww : window_width_warnings dist aperture tolerance = [] := by
      simp [window_width_warnings, hind]
    constructor
    · simp [window_evaluate, hsh, hwww]
    · intro prog hprog
      simp [window_evaluate, hprog, hwww]

/-- Witness for the amended claim C5: the shadeless sample aperture
carries exactly the quoted School warning under School and no warnings
under General. -/
theorem C5_school_warning_amended_witness :
    (window_evaluate euclid_dist bare_aperture ProgramName.school (1/100)).warnings =
      [school_warning] ∧
    (window_evaluate euclid_dist bare_aperture ProgramName.general (1/100)).warnings = [] := by
  have h := (C5_school_warning_amended euclid_dist bare_aperture (1/100)).2.2 rfl rfl
  exact ⟨h.1, h.2 ProgramName.general (by decide)⟩

/-- Counterexample for claim C6: a room with positive exterior aperture
area but no apertures on traversal is reported as fully shaded with no
warnings, not as unshaded with a data-inconsistency warning. -/
theorem C6_vacuous_shading_counterexample :
    (occupied_area_evaluate euclid_dist inconsistent_room ProgramName.general
      (1/100)).has_shades = true ∧
    (occupied_area_evaluate euclid_dist inconsistent_room ProgramName.general
      (1/100)).warnings = [] := by
  with_unfolding_all decide

/-- Claim C6 (amended): a space with nonzero exterior aperture area whose
traversal yields no apertures evaluates to has_windows true, has_shades
vacuously true and an empty warnings list. -/
theorem C6_vacuous_shading_amended {Pt : Type} (dist : Pt → Pt → ℚ) (room : Room Pt)
    (program : ProgramName) (tolerance : ℚ)
    (h0 : room.exterior_aperture_area ≠ 0)
    (hap : ∀ face ∈ room.faces, face.apertures = []) :
    occupied_area_evaluate dist room program tolerance = ⟨true, true, [], []⟩ := by
  have hwindows : (room.faces.map (fun face => face.apertures.map
      (fun aperture => window_evaluate dist aperture program tolerance))).flatten = [] :=
    flatten_eq_nil _ (by
      intro x hx
      rcases List.mem_map.mp hx with ⟨face, hface, rfl⟩
      rw [hap face hface]
      rfl)
  simp [occupied_area_evaluate, h0, hwindows]

/-- Witness for the amended claim C6: the sample inconsistent room
evaluates to windows present, shades vacuously present, no warnings. -/
theorem C6_vacuous_shading_amended_witness :
    occupied_area_evaluate euclid_dist inconsistent_room ProgramName.general (1/100) =
      ⟨true, true, [], []⟩ :=
  C6_vacuous_shading_amended euclid_dist inconsistent_room ProgramName.general (1/100)
    (by with_unfolding_all decide) (fun face hface => absurd hface (List.not_mem_nil face))

/-- The result variant of percentage_complied on an empty result file:
the unguarded division raises ZeroDivisionError. -/
theorem percentage_complied_nil (threshold : ℚ) :
    Result.percentage_complied [] threshold = Except.error PyErr.zeroDivision := by
  simp [Result.percentage_complied, pyDiv]

/-- Counterexample for claim C8: on an empty sensor list, an empty space
set, or a space whose result file is empty, the aggregation fails with the
raw ZeroDivisionError of an unguarded division, not with an explicit guard
error. -/
theorem C8_raw_zero_division_counterexample :
    Result.percentage_complied [] 250 = Except.error PyErr.zeroDivision ∧
    prepare_results general_program ([] : List (Room Unit)) sample_res =
      Except.error PyErr.zeroDivision ∧
    prepare_results general_program [sample_room20] empty_res =
      Except.error PyErr.zeroDivision := by
  with_unfolding_all decide

/-- Claim C8 (amended): the aggregation aborts with an unguarded
ZeroDivisionError, never a silently zero score, whenever a sensor list is
empty, the space set is empty, or the total floor area is zero. -/
theorem C8_failure_amended :
    (∀ threshold : ℚ,
      Result.percentage_complied [] threshold = Except.error PyErr.zeroDivision) ∧
    (∀ (Pt : Type) (program : Program) (res : String → String → List ℚ),
      prepare_results program ([] : List (Room Pt)) res =
        Except.error PyErr.zeroDivision) ∧
    (∀ (Pt : Type) (program : Program) (rooms : List (Room Pt))
      (res : String → String → List ℚ),
      (rooms.map (fun room => room.floor_area)).sum = 0 →
      ∀ q : ℚ, prepare_results program rooms res ≠ Except.ok q) ∧
    (∀ (Pt : Type) (program : Program) (rooms : List (Room Pt))
      (res : String → String → List ℚ) (room : Room Pt) (t : PointInTime),
      room ∈ rooms → t ∈ SIM_TIMES → res t.as_string (grid_file room) = [] →
      ∀ q : ℚ, prepare_results program rooms res ≠ Except.ok q) := by
  refine ⟨percentage_complied_nil, ?_, ?_, ?_⟩
  · intro Pt program res
    simp [prepare_results, mapE, pyDiv]
  · intro Pt program rooms res hsum q hok
    unfold prepare_results at hok
    cases hm : mapE (fun room => average_compliant_area program room res) rooms with
    | error e =>
      rw [hm] at hok
      exact Except.noConfusion (show (Except.error e : Except PyErr ℚ) = Except.ok q from hok)
    | ok averages =>
      rw [hm] at hok
      have hok2 : pyDiv averages.sum ((rooms.map (fun room => room.floor_area)).sum) =
          Except.ok q := hok
      rw [hsum] at hok2
      simp [pyDiv] at hok2
  · intro Pt program rooms res room t hroom ht hres q hok
    unfold prepare_results at hok
    cases hm : mapE (fun room => average_compliant_area program room res) rooms with
    | error e =>
      rw [hm] at hok
      exact Except.noConfusion (show (Except.error e : Except PyErr ℚ) = Except.ok q from hok)
    | ok averages =>
      obtain ⟨b, hb⟩ := mapE_ok_mem _ rooms averages hm room hroom
      unfold average_compliant_area at hb
      cases hm2 : mapE (compliant_area program room res) SIM_TIMES with
      | error e =>
        rw [hm2] at hb
        exact Except.noConfusion (show (Except.error e : Except PyErr ℚ) = Except.ok b from hb)
      | ok cas =>
        obtain ⟨c, hc⟩ := mapE_ok_mem _ SIM_TIMES cas hm2 t ht
        unfold compliant_area at hc
        rw [hres, percentage_complied_nil] at hc
        exact Except.noConfusion
          (show (Except.error PyErr.zeroDivision : Except PyErr ℚ) = Except.ok c from hc)

/-- Witness for the amended claim C8: a single room of floor area zero and
a single room with an empty result file both make the aggregation fail to
return a score. -/
theorem C8_failure_amended_witness :
    prepare_results general_program [zero_area_room] sample_res ≠ Except.ok 0 ∧
    prepare_results general_program [sample_room20] empty_res ≠ Except.ok 0 :=
  ⟨C8_failure_amended.2.2.1 Unit general_program [zero_area_room] sample_res
      (by with_unfolding_all decide) 0,
   C8_failure_amended.2.2.2 Unit general_program [sample_room20] empty_res sample_room20
      ⟨9, 21, 10⟩ (List.mem_singleton.mpr rfl) (by with_unfolding_all decide) rfl 0⟩

/-- Claim C1: the aggregator computes, per space and timepoint, the
compliant fraction as the count of sensor values at or above the threshold
over the sensor count, the compliant area as floor area times that
fraction, the per-space average as the unweighted mean of the six
compliant areas, and building-wide the sum of averages over the sum of
floor areas; on the sample single space of area 20 with six of ten values
compliant at every timepoint the fraction is 3/5, the compliant area and
average are 12, and the overall fraction is 3/5. -/
theorem C1_aggregation_matches_spec :
    (∀ (Pt : Type) (program : Program) (rooms : List (Room Pt))
      (res : String → String → List ℚ),
      (∀ room ∈ rooms, ∀ t ∈ SIM_TIMES, res t.as_string (grid_file room) ≠ []) →
      (rooms.map (fun room => room.floor_area)).sum ≠ 0 →
      prepare_results program rooms res =
        Except.ok (spec_overallCompliantFraction program rooms res)) ∧
    (∀ (vals : List ℚ) (threshold : ℚ), vals ≠ [] →
      Result.percentage_complied vals threshold =
        Except.ok (spec_fractionCompliant vals threshold)) ∧
    spec_fractionCompliant sample_vals 250 = 3/5 ∧
    spec_compliantArea general_program sample_room20 sample_res ⟨9, 21, 10⟩ = 12 ∧
    spec_averageCompliantArea general_program sample_room20 sample_res = 12 ∧
    spec_overallCompliantFraction general_program [sample_room20] sample_res = 3/5 := by
  refine ⟨?_, percentage_complied_ok, ?_, ?_, ?_, ?_⟩
  · intro Pt program rooms res hres harea
    unfold prepare_results
    rw [mapE_ok_of_forall _ (fun room => spec_averageCompliantArea program room res) rooms
      (fun room hr => average_compliant_area_ok program room res (hres room hr))]
    show pyDiv ((rooms.map (fun room => spec_averageCompliantArea program room res)).sum)
        ((rooms.map (fun room => room.floor_area)).sum) = _
    unfold pyDiv spec_overallCompliantFraction
    rw [if_neg harea]
  · with_unfolding_all decide
  · with_unfolding_all decide
  · with_unfolding_all decide
  · with_unfolding_all decide

/-- Witness for claim C1: on the sample single-space building the
aggregator returns exactly the spec formula, whose value is 3/5. -/
theorem C1_aggregation_matches_spec_witness :
    prepare_results general_program [sample_room20] sample_res =
      Except.ok (spec_overallCompliantFraction general_program [sample_room20] sample_res) ∧
    spec_overallCompliantFraction general_program [sample_room20] sample_res = 3/5 :=
  ⟨C1_aggregation_matches_spec.1 Unit general_program [sample_room20] sample_res
      (by with_unfolding_all decide) (by with_unfolding_all decide),
   C1_aggregation_matches_spec.2.2.2.2.2⟩

end Estidama
